import Mathlib

/-!
Verification of the TrackingTime MCP server's request/response translation
layer (src/api-client.ts) and its tool boundary (src/tools.ts), as a shallow
embedding: pure Lean functions mirror the TypeScript source statement by
statement, with the single network exchange of each call represented by an
explicit `FetchOutcome` value (what `fetch` produced), so that the response
handling, the error taxonomy and the tool-result translation become total
functions amenable to proof.
-/

/-- JSON values: the arbitrary payload (`data`) carried by the envelope, and
the shapes sent as request bodies. JavaScript numbers are modelled as `Int`
(every value the claims touch is integral). -/
inductive Json where
  | null
  | bool (b : Bool)
  | num (n : Int)
  | str (s : String)
  | arr (elems : List Json)
  | obj (fields : List (String × Json))

/-- The `response` header object of the uniform envelope
(`interface TTResponse`, api-client lines 25-28). -/
structure TTResponseMeta where
  status : Int
  message : String

/-- The uniform envelope every JSON API response uses
(`interface TTResponse`): `{response: {status, message}, data}`. -/
structure TTResponse where
  response : TTResponseMeta
  data : Json

/-- `class TrackingTimeError extends Error` (api-client lines 30-38):
a status (0 for transport failures, else envelope or HTTP status) and a
message. -/
structure TrackingTimeError where
  status : Int
  message : String

/-- The fixed request timeout, `REQUEST_TIMEOUT_MS = 30_000` (api-client
line 23). Real elapsed time is outside the embedding; the timer firing is
the `FetchOutcome.abortTimeout` case below. -/
def REQUEST_TIMEOUT_MS : Nat := 30000

/-- `ERROR_HINTS` (api-client lines 40-45): the static remediation-hint
table keyed by envelope status. The apostrophe in the 401 hint is written
as the escape \x27 for the same character. -/
def ERROR_HINTS (status : Int) : Option String :=
  if status = 401 then
    some "Check that your App Password is correct and hasn\x27t been revoked."
  else if status = 403 then
    some "Your account may not have permission for this action."
  else if status = 502 then
    some ("This usually means a timer is already running. " ++
      "Use stop_running_task=true on tt_start_timer, or call tt_stop_timer first.")
  else
    none

/-- `endpoint.replace(/^\//, "")`: the regex removes exactly one leading
slash when present, modelled on the character list of the string. -/
def stripOneLeadingSlash (s : String) : String :=
  match s.data with
  | '/' :: rest => String.mk rest
  | _ => s

/-- One hex digit, uppercase, as `URLSearchParams` percent-encoding emits. -/
def hexDigitChar (n : Nat) : Char :=
  if n < 10 then Char.ofNat (48 + n) else Char.ofNat (55 + n)

/-- Encoding of one UTF-8 byte per the `application/x-www-form-urlencoded`
serializer used by `URLSearchParams.toString()`: space becomes `+`,
ASCII alphanumerics and `*-._` stay, every other byte becomes `%XX`. -/
def percentEncodeByte (b : Nat) : String :=
  if b = 32 then "+"
  else if (48 ≤ b ∧ b ≤ 57) ∨ (65 ≤ b ∧ b ≤ 90) ∨ (97 ≤ b ∧ b ≤ 122) ∨
      b = 42 ∨ b = 45 ∨ b = 46 ∨ b = 95 then
    String.singleton (Char.ofNat b)
  else
    "%" ++ String.singleton (hexDigitChar (b / 16)) ++
      String.singleton (hexDigitChar (b % 16))

/-- Urlencoding of one string, byte by byte over its UTF-8 encoding. -/
def urlencodeComponent (s : String) : String :=
  String.join (s.toUTF8.toList.map (fun b => percentEncodeByte b.toNat))

/-- `new URLSearchParams(params).toString()`: `k=v` pairs joined by `&`,
keys and values urlencoded, in the order of the parameter map. -/
def searchParamsToString (params : List (String × String)) : String :=
  String.intercalate "&"
    (params.map (fun kv => urlencodeComponent kv.1 ++ "=" ++ urlencodeComponent kv.2))

/-- URL construction of `apiRequest` (api-client lines 53-58): the base URL,
a slash, the endpoint with one leading slash stripped, then `?` and the
serialized query only when the parameter map is non-empty. A `params`
argument of `[]` covers both the absent (`undefined`) and the empty map of
the source, which the guard `params && Object.keys(params).length > 0`
treats alike. -/
def apiRequestUrl (baseUrl endpoint : String) (params : List (String × String)) : String :=
  let url := baseUrl ++ "/" ++ stripOneLeadingSlash endpoint
  if params.isEmpty then url else url ++ "?" ++ searchParamsToString params

/-- URL construction of `rawApiRequest` (api-client lines 119-124): the
source repeats the same two statements verbatim. -/
def rawApiRequestUrl (baseUrl endpoint : String) (params : List (String × String)) : String :=
  let url := baseUrl ++ "/" ++ stripOneLeadingSlash endpoint
  if params.isEmpty then url else url ++ "?" ++ searchParamsToString params

/-- What the fetched HTTP response exposes to the code under verification:
`res.status`, `res.headers.get("content-type")` (absent header modelled as
`none`), `res.text()` as `body`, and `res.json()` as `envelope` — `some`
when the body parses as the envelope shape, `none` when `res.json()` would
reject. -/
structure HttpResponse where
  status : Int
  contentTypeHeader : Option String
  body : String
  envelope : Option TTResponse

/-- `res.ok` of the fetch API: HTTP status in the 200-299 range. -/
def HttpResponse.ok (res : HttpResponse) : Bool :=
  decide (200 ≤ res.status ∧ res.status < 300)

/-- The three ways the single awaited `fetch` can resolve, as the
surrounding try/catch observes them: the abort fired by the 30-second
timer (`DOMException` named AbortError), any other network failure with
its message, or an HTTP response. -/
inductive FetchOutcome where
  | abortTimeout
  | networkFailure (msg : String)
  | response (res : HttpResponse)

/-- Everything a call can throw: a `TrackingTimeError`, or the ordinary
`Error` thrown by `res.json()` on a body that is not JSON (its message
carried along, read by the `err instanceof Error` branch of
`formatError`). -/
inductive ApiError where
  | tte (e : TrackingTimeError)
  | jsonRejected (msg : String)

/-- Whether the first character list is a prefix of the second. -/
def prefixMatches : List Char → List Char → Bool
  | [], _ => true
  | _ :: _, [] => false
  | c :: cs, d :: ds => c = d && prefixMatches cs ds

/-- Whether `pat` occurs as a contiguous run inside `l`: it is a prefix of
some suffix of `l`. -/
def containsChars (l pat : List Char) : Bool :=
  prefixMatches pat l ||
    match l with
    | [] => false
    | _ :: rest => containsChars rest pat

/-- Substring test, as `String.prototype.includes` behaves: `pat` occurs
contiguously in `s` (always true for the empty pattern). -/
def containsSubstr (s pat : String) : Bool :=
  containsChars s.data pat.data

/-- Response handling of `apiRequest` (api-client lines 77-108), from the
resolution of `fetch` onward: timeout and network failures become
status-0 `TrackingTimeError`s; a declared content type not containing
"application/json" becomes an error carrying the HTTP status; an envelope
status other than 200 becomes an error carrying the envelope status and
the envelope message (`||`-replaced by the fallback when empty, JavaScript
falsiness of the empty string), with the static hint appended after ". "
when the status is in `ERROR_HINTS`; an envelope status of 200 returns
`json.data` unchanged. -/
def apiRequest (outcome : FetchOutcome) : Except ApiError Json :=
  match outcome with
  | .abortTimeout =>
    .error (.tte ⟨0, "Request timed out after 30s. TrackingTime may be unavailable."⟩)
  | .networkFailure msg =>
    .error (.tte ⟨0, "Network error: " ++ msg⟩)
  | .response res =>
    let contentType := res.contentTypeHeader.getD ""
    if ¬ containsSubstr contentType "application/json" then
      .error (.tte ⟨res.status,
        "TrackingTime returned HTTP " ++ toString res.status ++
          " with non-JSON response. The service may be temporarily unavailable."⟩)
    else
      match res.envelope with
      | none => .error (.jsonRejected ("Unexpected token in JSON: " ++ res.body))
      | some json =>
        if json.response.status ≠ 200 then
          let apiMessage :=
            if json.response.message = "" then
              "API error (status " ++ toString json.response.status ++ ")"
            else json.response.message
          let message :=
            match ERROR_HINTS json.response.status with
            | some hint => apiMessage ++ ". " ++ hint
            | none => apiMessage
          .error (.tte ⟨json.response.status, message⟩)
        else
          .ok json.data

/-- Response handling of `rawApiRequest` (api-client lines 139-156): the
same timeout and network-failure translation, then purely the transport
HTTP status decides — `!res.ok` throws a `TrackingTimeError` with a
generic message citing the status, otherwise the raw body text is
returned; the envelope field is never consulted. -/
def rawApiRequest (outcome : FetchOutcome) : Except ApiError String :=
  match outcome with
  | .abortTimeout =>
    .error (.tte ⟨0, "Request timed out after 30s. TrackingTime may be unavailable."⟩)
  | .networkFailure msg =>
    .error (.tte ⟨0, "Network error: " ++ msg⟩)
  | .response res =>
    if ¬ res.ok then
      .error (.tte ⟨res.status, "TrackingTime returned HTTP " ++ toString res.status⟩)
    else
      .ok res.body

/-- Escaping of one character inside a JSON string literal, as
`JSON.stringify` performs it: quote, backslash and the named control
characters get two-character escapes, other control characters (below
0x20) get a `\u00XX` escape, everything else stays. -/
def escapeJsonChar (c : Char) : String :=
  if c = '"' then "\\\""
  else if c = '\\' then "\\\\"
  else if c = '\n' then "\\n"
  else if c = '\t' then "\\t"
  else if c = '\x0d' then "\\r"
  else if c = '\x08' then "\\b"
  else if c = '\x0c' then "\\f"
  else if c.toNat < 32 then
    "\\u00" ++ String.singleton (hexDigitChar (c.toNat / 16)) ++
      String.singleton (hexDigitChar (c.toNat % 16))
  else String.singleton c

/-- A JSON string literal with its quotes, as `JSON.stringify` renders it. -/
def escapeJsonString (s : String) : String :=
  "\"" ++ String.join (s.data.map escapeJsonChar) ++ "\""

/-- Indentation of `depth` levels at two spaces each, the third argument
`2` of the `JSON.stringify(data, null, 2)` call in `toolResult`. -/
def jsonIndent (depth : Nat) : String :=
  String.join (List.replicate depth "  ")

mutual

/-- `JSON.stringify(v, null, 2)` at nesting depth `depth`: scalars render
inline, non-empty arrays and objects spread one element per line with
two-space indentation per level. Braces that are output text are written
with the escapes \x7b and \x7d. -/
def jsonStringifyAt (depth : Nat) : Json → String
  | .null => "null"
  | .bool b => if b then "true" else "false"
  | .num n => toString n
  | .str s => escapeJsonString s
  | .arr [] => "[]"
  | .arr (x :: xs) =>
    "[\n" ++ jsonStringifyArrItems (depth + 1) x xs ++ "\n" ++ jsonIndent depth ++ "]"
  | .obj [] => "\x7b\x7d"
  | .obj (f :: fs) =>
    "\x7b\n" ++ jsonStringifyObjItems (depth + 1) f fs ++ "\n" ++ jsonIndent depth ++ "\x7d"
termination_by v => sizeOf v

/-- The comma-and-newline separated lines of a non-empty array body. -/
def jsonStringifyArrItems (depth : Nat) (x : Json) (xs : List Json) : String :=
  match xs with
  | [] => jsonIndent depth ++ jsonStringifyAt depth x
  | y :: ys =>
    jsonIndent depth ++ jsonStringifyAt depth x ++ ",\n" ++
      jsonStringifyArrItems depth y ys
termination_by sizeOf x + sizeOf xs

/-- The comma-and-newline separated `"key": value` lines of a non-empty
object body. -/
def jsonStringifyObjItems (depth : Nat) (f : String × Json) (fs : List (String × Json)) : String :=
  match f, fs with
  | (k, v), [] => jsonIndent depth ++ escapeJsonString k ++ ": " ++ jsonStringifyAt depth v
  | (k, v), g :: gs =>
    jsonIndent depth ++ escapeJsonString k ++ ": " ++ jsonStringifyAt depth v ++
      ",\n" ++ jsonStringifyObjItems depth g gs
termination_by sizeOf f + sizeOf fs

end

/-- `JSON.stringify(data, null, 2)` as `toolResult` calls it. -/
def jsonStringify (v : Json) : String :=
  jsonStringifyAt 0 v

/-- `formatError` (tools.ts lines 5-11): a `TrackingTimeError` renders with
its status prefixed; any other `Error` renders as its own message. -/
def formatError (err : ApiError) : String :=
  match err with
  | .tte e => "TrackingTime API error (" ++ toString e.status ++ "): " ++ e.message
  | .jsonRejected msg => msg

/-- The payload a tool handler returns to the caller: the text content and
the `isError` mark. -/
structure ToolResult where
  text : String
  isError : Bool

/-- `toolResult` (tools.ts lines 13-15): the payload serialized as
structured text, not marked as an error. -/
def toolResult (data : Json) : ToolResult :=
  ⟨jsonStringify data, false⟩

/-- `errorResult` (tools.ts lines 17-19): the formatted error text, marked
`isError: true`. -/
def errorResult (err : ApiError) : ToolResult :=
  ⟨formatError err, true⟩

/-- The handler body shared verbatim by all 54 registered tools
(`try { return toolResult(await apiRequest(...)); } catch (err)
{ return errorResult(err); }`): the awaited call either resolves to a
payload or throws, and the catch-all turns every thrown error into
`errorResult`. Totality of this function is the embedded form of
"the handler never re-raises". -/
def toolHandler (call : Except ApiError Json) : ToolResult :=
  match call with
  | .ok data => toolResult data
  | .error err => errorResult err

/-- Query parameters built by the `tt_list_projects` handler (tools.ts
lines 43-47): empty, plus `filter` when supplied. -/
def tt_list_projects_params (filter : Option String) : List (String × String) :=
  match filter with
  | some f => [("filter", f)]
  | none => []

/-- The `tt_list_projects` handler (tools.ts lines 43-51) applied to the
outcome of its single `apiRequest("GET", "/projects", params)` call. -/
def tt_list_projects (outcome : FetchOutcome) : ToolResult :=
  toolHandler (apiRequest outcome)

/-- Query parameters built by the `tt_export_time_entries` handler
(tools.ts lines 1072-1078): `separator` always, then `filter`, `id`,
`from`, `to` when supplied. -/
def tt_export_time_entries_params (separator : String) (filter : Option String)
    (id : Option Int) (fromDate toDate : Option String) : List (String × String) :=
  [("separator", separator)] ++
    (match filter with | some f => [("filter", f)] | none => []) ++
    (match id with | some i => [("id", toString i)] | none => []) ++
    (match fromDate with | some d => [("from", d)] | none => []) ++
    (match toDate with | some d => [("to", d)] | none => [])

/-- The `tt_export_time_entries` handler (tools.ts lines 1072-1084) applied
to the outcome of its single call: the source routes it through
`apiRequest("GET", "/events/export", params)` — the JSON-envelope path,
not `rawApiRequest`. -/
def tt_export_time_entries (outcome : FetchOutcome) : ToolResult :=
  toolHandler (apiRequest outcome)

/-- The validated startup configuration (api-client lines 20-22): the base
URL derived from the account identifier. The Authorization header value
(a base64 rendering of the credentials) is opaque to every claim and kept
as the raw credential pair here. -/
structure Config where
  appPassword : String
  accountId : String
  baseUrl : String

/-- `https://app.trackingtime.co/api/v4/` followed by the account
identifier (api-client line 20). -/
def BASE_URL (accountId : String) : String :=
  "https://app.trackingtime.co/api/v4/" ++ accountId

/-- Module initialization of api-client (lines 10-18), which runs before
any tool is registered because tools.ts imports this module: reads the two
environment variables and throws when either is JavaScript-falsy (absent
or the empty string); only on success do the derived constants — and with
them any tool call — exist. -/
def initApiClient (envAppPassword envAccountId : Option String) : Except String Config :=
  if envAppPassword.getD "" = "" ∨ envAccountId.getD "" = "" then
    .error ("Missing required env vars: TT_APP_PASSWORD, TT_ACCOUNT_ID. " ++
      "Create an App Password in TrackingTime: Manage → User Settings → Apps & Integrations")
  else
    .ok ⟨envAppPassword.getD "", envAccountId.getD "", BASE_URL (envAccountId.getD "")⟩

/-! Helper lemmas about strings, shared by several claims below. -/

/-- The character list of an appended string is the appended character
lists. -/
theorem stringDataAppend (s t : String) : (s ++ t).data = s.data ++ t.data := by
  cases s
  cases t
  rfl

/-- A string whose first character exists is not the empty string. -/
theorem stringNeEmptyOfHead (s : String) (c : Char) (h : s.data.head? = some c) :
    s ≠ "" := by
  intro he
  rw [he] at h
  exact Option.noConfusion h

/-- C2: a call through `apiRequest` whose response has a JSON content type
and an envelope with status 200 returns exactly the envelope's `data`,
untransformed; with an empty parameter map the request URL is the base URL
and path with no query string; and on the mock envelope
`{response:{status:200,message:"ok"}, data:[{id:1,name:"Demo"}]}` the
result is `[{id:1,name:"Demo"}]`. -/
theorem claim_C2 :
    (∀ (st : Int) (ct : Option String) (body : String) (env : TTResponse),
      containsSubstr (ct.getD "") "application/json" = true →
      env.response.status = 200 →
      apiRequest (.response ⟨st, ct, body, some env⟩) = .ok env.data) ∧
    (∀ accountId : String,
      apiRequestUrl (BASE_URL accountId) "/projects" [] =
        BASE_URL accountId ++ "/" ++ "projects") ∧
    apiRequest (.response ⟨200, some "application/json", "",
        some ⟨⟨200, "ok"⟩, .arr [.obj [("id", .num 1), ("name", .str "Demo")]]⟩⟩) =
      .ok (.arr [.obj [("id", .num 1), ("name", .str "Demo")]]) := by
  refine ⟨?_, ?_, rfl⟩
  · intro st ct body env hct h200
    simp [apiRequest, hct, h200]
  · intro accountId
    rfl

/-- C2 witness: the first two parts applied at a concrete input, their
hypotheses discharged there. -/
theorem claim_C2_witness :
    apiRequest (.response ⟨200, some "application/json", "ignored",
        some ⟨⟨200, "ok"⟩, .num 7⟩⟩) = .ok (Json.num 7) ∧
    apiRequestUrl (BASE_URL "12345") "/projects" [] =
      BASE_URL "12345" ++ "/" ++ "projects" :=
  ⟨claim_C2.1 200 (some "application/json") "ignored" ⟨⟨200, "ok"⟩, .num 7⟩
      (by decide) rfl,
    claim_C2.2.1 "12345"⟩

/-- C5: a completed HTTP exchange whose declared content type does not
contain "application/json" always fails with a `TrackingTimeError`
carrying the actual HTTP status and the non-JSON message, and never
returns a successful result — also when the HTTP status is 200. -/
theorem claim_C5 :
    ∀ (st : Int) (ct : Option String) (body : String) (envOpt : Option TTResponse),
      ¬ containsSubstr (ct.getD "") "application/json" = true →
      apiRequest (.response ⟨st, ct, body, envOpt⟩) =
        .error (.tte ⟨st,
          "TrackingTime returned HTTP " ++ toString st ++
            " with non-JSON response. The service may be temporarily unavailable."⟩) ∧
      (∀ d : Json, apiRequest (.response ⟨st, ct, body, envOpt⟩) ≠ .ok d) := by
  intro st ct body envOpt hct
  have heq : apiRequest (.response ⟨st, ct, body, envOpt⟩) =
      .error (.tte ⟨st,
        "TrackingTime returned HTTP " ++ toString st ++
          " with non-JSON response. The service may be temporarily unavailable."⟩) := by
    simp [apiRequest, hct]
  refine ⟨heq, ?_⟩
  intro d hd
  rw [heq] at hd
  exact Except.noConfusion hd

/-- C5 witness: an HTML error page behind HTTP 200. -/
theorem claim_C5_witness :
    apiRequest (.response ⟨200, some "text/html", "<html></html>", none⟩) =
      .error (.tte ⟨200,
        "TrackingTime returned HTTP " ++ toString (200 : Int) ++
          " with non-JSON response. The service may be temporarily unavailable."⟩) :=
  (claim_C5 200 (some "text/html") "<html></html>" none (by decide)).1

/-- C6: `rawApiRequest` returns the exact response body text when the HTTP
status is in the success range 200-299, fails with a `TrackingTimeError`
carrying the HTTP status and the generic message otherwise, and its result
never depends on how (or whether) the body would parse as a JSON
envelope. -/
theorem claim_C6 :
    ∀ (st : Int) (ct : Option String) (body : String) (envOpt : Option TTResponse),
      ((200 ≤ st ∧ st < 300) →
        rawApiRequest (.response ⟨st, ct, body, envOpt⟩) = .ok body) ∧
      (¬ (200 ≤ st ∧ st < 300) →
        rawApiRequest (.response ⟨st, ct, body, envOpt⟩) =
          .error (.tte ⟨st, "TrackingTime returned HTTP " ++ toString st⟩)) ∧
      (∀ envOpt₂ : Option TTResponse,
        rawApiRequest (.response ⟨st, ct, body, envOpt⟩) =
          rawApiRequest (.response ⟨st, ct, body, envOpt₂⟩)) := by
  intro st ct body envOpt
  refine ⟨?_, ?_, ?_⟩
  · intro h
    simp [rawApiRequest, HttpResponse.ok, h]
  · intro h
    simp [rawApiRequest, HttpResponse.ok, h]
  · intro envOpt₂
    by_cases h : 200 ≤ st ∧ st < 300 <;>
      simp [rawApiRequest, HttpResponse.ok, h]

/-- C6 witness: success and failure cases at concrete statuses. -/
theorem claim_C6_witness :
    rawApiRequest (.response ⟨200, some "text/csv", "a;b", none⟩) = .ok "a;b" ∧
    rawApiRequest (.response ⟨404, some "text/csv", "a;b", none⟩) =
      .error (.tte ⟨404, "TrackingTime returned HTTP " ++ toString (404 : Int)⟩) :=
  ⟨(claim_C6 200 (some "text/csv") "a;b" none).1 (by decide),
    (claim_C6 404 (some "text/csv") "a;b" none).2.1 (by decide)⟩

/-- C4: an aborted (timed-out) call yields a `TrackingTimeError` with
status 0 whose message contains "timed out"; a network failure before any
timeout yields status 0 with the distinct "Network error: ..." message; and
no network-failure message ever coincides with the timeout message, for
both `apiRequest` and `rawApiRequest`. -/
theorem claim_C4 :
    apiRequest .abortTimeout =
      .error (.tte ⟨0, "Request timed out after 30s. TrackingTime may be unavailable."⟩) ∧
    rawApiRequest .abortTimeout =
      .error (.tte ⟨0, "Request timed out after 30s. TrackingTime may be unavailable."⟩) ∧
    containsSubstr "Request timed out after 30s. TrackingTime may be unavailable."
      "timed out" = true ∧
    (∀ msg : String,
      apiRequest (.networkFailure msg) = .error (.tte ⟨0, "Network error: " ++ msg⟩)) ∧
    (∀ msg : String,
      rawApiRequest (.networkFailure msg) = .error (.tte ⟨0, "Network error: " ++ msg⟩)) ∧
    (∀ msg : String,
      "Network error: " ++ msg ≠
        "Request timed out after 30s. TrackingTime may be unavailable.") := by
  refine ⟨rfl, rfl, by decide, fun msg => rfl, fun msg => rfl, ?_⟩
  intro msg h
  have hd := congrArg String.data h
  rw [stringDataAppend] at hd
  have hh := congrArg List.head? hd
  have h1 : ("Network error: ".data ++ msg.data).head? = some 'N' := rfl
  have h2 : ("Request timed out after 30s. TrackingTime may be unavailable.".data).head? =
      some 'R' := rfl
  rw [h1, h2] at hh
  exact absurd hh (by decide)

/-- C4 witness: the network-failure parts applied at "connection refused". -/
theorem claim_C4_witness :
    apiRequest (.networkFailure "connection refused") =
      .error (.tte ⟨0, "Network error: " ++ "connection refused"⟩) ∧
    "Network error: " ++ "connection refused" ≠
      "Request timed out after 30s. TrackingTime may be unavailable." :=
  ⟨claim_C4.2.2.2.1 "connection refused", claim_C4.2.2.2.2.2 "connection refused"⟩

/-- C7: an error thrown by the underlying request is returned by the shared
handler pattern as a result marked `isError` whose text is the formatted
message — prefixed with the status for a `TrackingTimeError`, left as the
error's own message otherwise — and, being a total function, the handler
never re-raises; `tt_list_projects` instantiates the pattern. -/
theorem claim_C7 :
    (∀ (call : Except ApiError Json) (err : ApiError),
      call = .error err →
      toolHandler call = ⟨formatError err, true⟩) ∧
    (∀ e : TrackingTimeError,
      formatError (.tte e) =
        "TrackingTime API error (" ++ toString e.status ++ "): " ++ e.message) ∧
    (∀ msg : String, formatError (.jsonRejected msg) = msg) ∧
    (∀ (outcome : FetchOutcome) (err : ApiError),
      apiRequest outcome = .error err →
      tt_list_projects outcome = ⟨formatError err, true⟩) := by
  refine ⟨?_, fun e => rfl, fun msg => rfl, ?_⟩
  · intro call err hcall
    rw [hcall]
    rfl
  · intro outcome err herr
    show toolHandler (apiRequest outcome) = _
    rw [herr]
    rfl

/-- C7 witness: the handler parts applied to a timed-out call. -/
theorem claim_C7_witness :
    tt_list_projects .abortTimeout =
      ⟨formatError (.tte ⟨0, "Request timed out after 30s. TrackingTime may be unavailable."⟩),
        true⟩ ∧
    toolHandler (.error (.jsonRejected "Unexpected token")) =
      ⟨formatError (.jsonRejected "Unexpected token"), true⟩ :=
  ⟨claim_C7.2.2.2 .abortTimeout
      (.tte ⟨0, "Request timed out after 30s. TrackingTime may be unavailable."⟩) rfl,
    claim_C7.1 (.error (.jsonRejected "Unexpected token")) (.jsonRejected "Unexpected token") rfl⟩

/-- C8: when either required environment value is absent (or empty, which
the source's falsiness test treats the same), module initialization fails
with the fatal startup error, so no configuration — and with it no served
tool — can exist; conversely a successful initialization proves both
values were present. -/
theorem claim_C8 :
    (∀ envAppPassword envAccountId : Option String,
      (envAppPassword = none ∨ envAppPassword = some "" ∨
        envAccountId = none ∨ envAccountId = some "") →
      initApiClient envAppPassword envAccountId =
        .error ("Missing required env vars: TT_APP_PASSWORD, TT_ACCOUNT_ID. " ++
          "Create an App Password in TrackingTime: Manage → User Settings → Apps & Integrations")) ∧
    (∀ (envAppPassword envAccountId : Option String) (cfg : Config),
      initApiClient envAppPassword envAccountId = .ok cfg →
      ¬ (envAppPassword = none ∨ envAppPassword = some "" ∨
        envAccountId = none ∨ envAccountId = some "")) := by
  have h1 : ∀ envAppPassword envAccountId : Option String,
      (envAppPassword = none ∨ envAppPassword = some "" ∨
        envAccountId = none ∨ envAccountId = some "") →
      initApiClient envAppPassword envAccountId =
        .error ("Missing required env vars: TT_APP_PASSWORD, TT_ACCOUNT_ID. " ++
          "Create an App Password in TrackingTime: Manage → User Settings → Apps & Integrations") := by
    intro pw acct h
    have hfalsy : pw.getD "" = "" ∨ acct.getD "" = "" := by
      rcases h with h | h | h | h <;> rw [h] <;> simp
    simp [initApiClient, hfalsy]
  refine ⟨h1, ?_⟩
  intro pw acct cfg hok hbad
  rw [h1 pw acct hbad] at hok
  exact Except.noConfusion hok

/-- C8 witness: a missing application password is fatal at startup. -/
theorem claim_C8_witness :
    initApiClient none (some "12345") =
      .error ("Missing required env vars: TT_APP_PASSWORD, TT_ACCOUNT_ID. " ++
        "Create an App Password in TrackingTime: Manage → User Settings → Apps & Integrations") :=
  claim_C8.1 none (some "12345") (Or.inl rfl)

/-- C1 counterexample: with a JSON response whose envelope is
`{status: 500, message: ""}` — a non-hinted, non-200 status — the thrown
error's message is the fallback text "API error (status 500)", not the
envelope's message alone (which is empty), so the claim as stated fails at
this input. -/
theorem claim_C1_counterexample :
    apiRequest (.response ⟨200, some "application/json", "",
        some ⟨⟨500, ""⟩, .null⟩⟩) =
      .error (.tte ⟨500, "API error (status 500)"⟩) ∧
    "API error (status 500)" ≠ "" := by
  exact ⟨rfl, by decide⟩

/-- C1 (amended): the hinted statuses are exactly 401, 403 and 502; for
every JSON-content-type call whose envelope has status ≠ 200 and a
non-empty message, the thrown error's status is the envelope status and
its message is the envelope message followed by ". " and the exact static
hint when the status is hinted, and the envelope message alone
otherwise. -/
theorem claim_C1 :
    (∀ s : Int, (ERROR_HINTS s).isSome = true ↔ (s = 401 ∨ s = 403 ∨ s = 502)) ∧
    (∀ (st : Int) (ct : Option String) (body : String) (env : TTResponse) (hint : String),
      containsSubstr (ct.getD "") "application/json" = true →
      env.response.status ≠ 200 →
      env.response.message ≠ "" →
      ERROR_HINTS env.response.status = some hint →
      apiRequest (.response ⟨st, ct, body, some env⟩) =
        .error (.tte ⟨env.response.status, env.response.message ++ ". " ++ hint⟩)) ∧
    (∀ (st : Int) (ct : Option String) (body : String) (env : TTResponse),
      containsSubstr (ct.getD "") "application/json" = true →
      env.response.status ≠ 200 →
      env.response.message ≠ "" →
      ERROR_HINTS env.response.status = none →
      apiRequest (.response ⟨st, ct, body, some env⟩) =
        .error (.tte ⟨env.response.status, env.response.message⟩)) := by
  refine ⟨?_, ?_, ?_⟩
  · intro s
    unfold ERROR_HINTS
    split_ifs with h1 h2 h3 <;> simp_all
  · intro st ct body env hint hct hst hmsg hhint
    simp [apiRequest, hct, hst, hmsg, hhint]
  · intro st ct body env hct hst hmsg hhint
    simp [apiRequest, hct, hst, hmsg, hhint]

/-- C1 witness: the amended hinted case at the spec's own 502 scenario and
the unhinted case at status 500, hypotheses discharged concretely. -/
theorem claim_C1_witness :
    apiRequest (.response ⟨200, some "application/json", "",
        some ⟨⟨502, "already tracking"⟩, .null⟩⟩) =
      .error (.tte ⟨502, "already tracking" ++ ". " ++
        ("This usually means a timer is already running. " ++
          "Use stop_running_task=true on tt_start_timer, or call tt_stop_timer first.")⟩) ∧
    apiRequest (.response ⟨200, some "application/json", "",
        some ⟨⟨500, "boom"⟩, .null⟩⟩) =
      .error (.tte ⟨500, "boom"⟩) :=
  ⟨claim_C1.2.1 200 (some "application/json") "" ⟨⟨502, "already tracking"⟩, .null⟩
      ("This usually means a timer is already running. " ++
        "Use stop_running_task=true on tt_start_timer, or call tt_stop_timer first.")
      (by decide) (by decide) (by decide) rfl,
    claim_C1.2.2 200 (some "application/json") "" ⟨⟨500, "boom"⟩, .null⟩
      (by decide) (by decide) (by decide) rfl⟩

/-- C9: when the envelope message is empty and the envelope status is not
200, the thrown error carries the envelope status and the fallback message
"API error (status s)" — with the static hint appended after ". " when the
status is hinted — and that message is never empty. -/
theorem claim_C9 :
    ∀ (st : Int) (ct : Option String) (body : String) (env : TTResponse),
      containsSubstr (ct.getD "") "application/json" = true →
      env.response.status ≠ 200 →
      env.response.message = "" →
      ∃ m : String,
        apiRequest (.response ⟨st, ct, body, some env⟩) =
          .error (.tte ⟨env.response.status, m⟩) ∧
        m ≠ "" ∧
        (ERROR_HINTS env.response.status = none →
          m = "API error (status " ++ toString env.response.status ++ ")") ∧
        (∀ hint : String, ERROR_HINTS env.response.status = some hint →
          m = ("API error (status " ++ toString env.response.status ++ ")") ++
            ". " ++ hint) := by
  intro st ct body env hct hst hmsg
  cases hh : ERROR_HINTS env.response.status with
  | none =>
    refine ⟨"API error (status " ++ toString env.response.status ++ ")", ?_, ?_, ?_, ?_⟩
    · simp [apiRequest, hct, hst, hmsg, hh]
    · apply stringNeEmptyOfHead _ 'A'
      rw [stringDataAppend, stringDataAppend]
      rfl
    · intro _
      rfl
    · intro hint hcontra
      exact Option.noConfusion hcontra
  | some hint =>
    refine ⟨("API error (status " ++ toString env.response.status ++ ")") ++ ". " ++ hint,
      ?_, ?_, ?_, ?_⟩
    · simp [apiRequest, hct, hst, hmsg, hh]
    · apply stringNeEmptyOfHead _ 'A'
      rw [stringDataAppend, stringDataAppend, stringDataAppend, stringDataAppend]
      rfl
    · intro hcontra
      exact Option.noConfusion hcontra
    · intro hint₂ hsome
      have he := Option.some.inj hsome
      rw [he]

/-- C9 witness: the fallback at the non-hinted status 500 with an empty
envelope message. -/
theorem claim_C9_witness :
    ∃ m : String,
      apiRequest (.response ⟨200, some "application/json", "",
          some ⟨⟨500, ""⟩, .null⟩⟩) =
        .error (.tte ⟨500, m⟩) ∧
      m ≠ "" ∧
      (ERROR_HINTS 500 = none → m = "API error (status " ++ toString (500 : Int) ++ ")") ∧
      (∀ hint : String, ERROR_HINTS 500 = some hint →
        m = ("API error (status " ++ toString (500 : Int) ++ ")") ++ ". " ++ hint) :=
  claim_C9 200 (some "application/json") "" ⟨⟨500, ""⟩, .null⟩ (by decide) (by decide) rfl

/-- Stripping one leading slash from a slash-prefixed endpoint returns the
remainder. -/
theorem stripOneLeadingSlash_slash_append (p : String) :
    stripOneLeadingSlash ("/" ++ p) = p := by
  cases p
  rfl

/-- Stripping one leading slash leaves an endpoint that does not start with
a slash unchanged. -/
theorem stripOneLeadingSlash_of_no_slash (p : String)
    (h : p.data.head? ≠ some '/') : stripOneLeadingSlash p = p := by
  unfold stripOneLeadingSlash
  split
  · next rest heq => exact absurd (by rw [heq]; rfl) h
  · rfl

/-- C10: `apiRequest` and `rawApiRequest` compute the request URL by the
same function of endpoint and parameters, and for an endpoint `p` that
does not itself begin with a slash, writing it as "/p" or as "p" yields
the same URL for every base URL and parameter map — exactly one leading
slash is stripped. -/
theorem claim_C10 :
    (∀ (baseUrl endpoint : String) (params : List (String × String)),
      apiRequestUrl baseUrl endpoint params = rawApiRequestUrl baseUrl endpoint params) ∧
    (∀ (p : String), stripOneLeadingSlash ("/" ++ p) = p) ∧
    (∀ (baseUrl p : String) (params : List (String × String)),
      p.data.head? ≠ some '/' →
      apiRequestUrl baseUrl ("/" ++ p) params = apiRequestUrl baseUrl p params) ∧
    (∀ (baseUrl p : String) (params : List (String × String)),
      p.data.head? ≠ some '/' →
      rawApiRequestUrl baseUrl ("/" ++ p) params = rawApiRequestUrl baseUrl p params) := by
  refine ⟨fun baseUrl endpoint params => rfl, stripOneLeadingSlash_slash_append, ?_, ?_⟩
  · intro baseUrl p params h
    unfold apiRequestUrl
    rw [stripOneLeadingSlash_slash_append, stripOneLeadingSlash_of_no_slash p h]
  · intro baseUrl p params h
    unfold rawApiRequestUrl
    rw [stripOneLeadingSlash_slash_append, stripOneLeadingSlash_of_no_slash p h]

/-- C10 witness: invariance at the `projects` endpoint with a parameter
map. -/
theorem claim_C10_witness :
    "projects".data.head? ≠ some '/' ∧
    apiRequestUrl (BASE_URL "12345") ("/" ++ "projects") [("filter", "ALL")] =
      apiRequestUrl (BASE_URL "12345") "projects" [("filter", "ALL")] :=
  ⟨by decide,
    claim_C10.2.2.1 (BASE_URL "12345") "projects" [("filter", "ALL")] (by decide)⟩

/-- C3: the `tt_export_time_entries` handler routes through `apiRequest`,
the JSON-envelope path — not `rawApiRequest`, which the source defines
for CSV export but never calls. On the scenario's input (HTTP 200,
delimited text body, a non-JSON content type) the tool therefore returns
an error result carrying the non-JSON message instead of the CSV text,
while `rawApiRequest` on the same exchange would have returned exactly
the body string. -/
theorem claim_C3 :
    tt_export_time_entries (.response ⟨200, some "text/csv", "id,duration\n1,3600", none⟩) =
      ⟨"TrackingTime API error (200): TrackingTime returned HTTP 200 with non-JSON response. The service may be temporarily unavailable.",
        true⟩ ∧
    rawApiRequest (.response ⟨200, some "text/csv", "id,duration\n1,3600", none⟩) =
      .ok "id,duration\n1,3600" :=
  ⟨rfl, rfl⟩
